import Mathlib

/-!
Verification development for the ATE chain-of-trust storage engine.

This file gives a shallow embedding, in Lean, of the parts of the source
that the specification talks about: the DIO transactional view
(src/lib/src/dio/mod.rs), the timestamp enforcer (src/src/time.rs), the
login service (src/auth/src/login.rs), the group-removal worker
(src/auth/src/work/group_remove.rs) and the framed stream writer
(src/lib/src/comms/stream.rs).  Machine integers are modelled as Nat,
byte buffers as List Nat, hash maps as association lists (lookup takes
the first match, mirroring overwrite-on-insert), and fallible Rust code
returns Except.  External collaborators (the chain indexes, the plugin
pipeline, the network pipe) are modelled as function-valued parameters,
following the contracts the specification gives for them.
-/

namespace Ate

/-- A 64-bit identifier derived either by random generation (`gen`) or by
hashing a domain string (`ofString`).  The hash of a string is modelled
as an injective constructor, abstracting collision-freeness. -/
inductive PrimaryKey where
  | gen : Nat → PrimaryKey
  | ofString : String → PrimaryKey
deriving DecidableEq, Repr

/-- Secondary-index key: a parent key paired with a collection id
(`MetaCollection` in the source). -/
structure MetaCollection where
  parent_id : PrimaryKey
  collection_id : Nat
deriving DecidableEq, Repr

/-- The tree link carried by a row; the DIO only consults its `vec`
(the collection the row belongs to). -/
structure MetaTree where
  vec : MetaCollection
deriving DecidableEq, Repr

/-- Authorization metadata, from src/src/meta.rs: lists of read/write key
hashes plus an implicit authority string. -/
structure MetaAuthorization where
  allow_read : List Nat
  allow_write : List Nat
  implicit_authority : String
deriving DecidableEq, Repr

/-- The default authorization: no restrictions. -/
def MetaAuthorization.default : MetaAuthorization :=
  { allow_read := [], allow_write := [], implicit_authority := "" }

/-- Timestamp header payload, from src/src/time.rs (milliseconds since
the epoch). -/
structure MetaTimestamp where
  time_since_epoch_ms : Nat
deriving DecidableEq, Repr

/-- Signature metadata: the header hashes it covers, the signature hash
and the signing public key hash. -/
structure MetaSignature where
  header_hashes : List Nat
  signature_hash : Nat
  public_key_hash : Nat
deriving DecidableEq, Repr

/-- Core metadata entries, the closed tagged union from src/src/meta.rs,
with the `Timestamp` variant used by src/src/time.rs. -/
inductive CoreMetadata where
  | NoneMeta : CoreMetadata
  | Data : PrimaryKey → CoreMetadata
  | Tombstone : PrimaryKey → CoreMetadata
  | Authorization : MetaAuthorization → CoreMetadata
  | InitializationVector : List Nat → CoreMetadata
  | PublicKey : Nat → CoreMetadata
  | EncryptedPrivateKey : Nat → CoreMetadata
  | EncyptedEncryptionKey : Nat → CoreMetadata
  | Tree : MetaTree → CoreMetadata
  | Signature : MetaSignature → CoreMetadata
  | Author : String → CoreMetadata
  | Timestamp : MetaTimestamp → CoreMetadata
deriving DecidableEq, Repr

/-- An event header: the ordered vector of core metadata entries. -/
structure Metadata where
  core : List CoreMetadata
deriving DecidableEq, Repr

/-- Modelled from the spec: `Metadata::for_data(pk)` constructs a fresh
header with exactly one `Data(pk)` entry (the function itself lives
outside the sampled sources). -/
def Metadata.for_data (pk : PrimaryKey) : Metadata :=
  { core := [CoreMetadata.Data pk] }

/-- Modelled from the spec: `Metadata::add_tombstone(pk)` appends a
`Tombstone` entry. -/
def Metadata.add_tombstone (m : Metadata) (pk : PrimaryKey) : Metadata :=
  { core := m.core ++ [CoreMetadata.Tombstone pk] }

/-- Modelled from the spec: `Metadata::get_data_key()` returns the first
`Data` entry or none. -/
def Metadata.get_data_key (m : Metadata) : Option PrimaryKey :=
  m.core.findSome? (fun e => match e with
    | CoreMetadata.Data pk => some pk
    | _ => none)

/-- Modelled from the spec: `Metadata::get_tombstone()` returns the first
`Tombstone` entry or none. -/
def Metadata.get_tombstone (m : Metadata) : Option PrimaryKey :=
  m.core.findSome? (fun e => match e with
    | CoreMetadata.Tombstone pk => some pk
    | _ => none)

/-- Whether an authorization entry carries any restriction. -/
def MetaAuthorization.restricts (a : MetaAuthorization) : Bool :=
  decide (a.allow_read ≠ []) || decide (a.allow_write ≠ []) ||
    decide (a.implicit_authority ≠ "")

/-- Modelled from the spec: `Metadata::needs_signature()` is true iff any
authorization restriction is present in the header (the function itself
lives outside the sampled sources). -/
def Metadata.needs_signature (m : Metadata) : Bool :=
  m.core.any (fun e => match e with
    | CoreMetadata.Authorization a => a.restricts
    | _ => false)

/-- Wire encoding tag of an event (binary vs self-describing). -/
inductive MessageFormat where
  | binary : MessageFormat
  | selfDescribing : MessageFormat
deriving DecidableEq, Repr

/-- The atomic unit of the log: header, optional payload, format tag. -/
structure EventData where
  meta : Metadata
  data_bytes : Option (List Nat)
  format : MessageFormat
deriving DecidableEq, Repr

/-- Index entry for an event: derived creation/update timestamps (the
fields the DIO consults). -/
structure EventLeaf where
  created : Nat
  updated : Nat
deriving DecidableEq, Repr

/-- A loaded raw event paired with its leaf, as returned by the chain. -/
structure LoadedEvent where
  data : EventData
  leaf : EventLeaf
deriving DecidableEq, Repr

/-- Load-path errors, the tagged variants from the error taxonomy. -/
inductive LoadError where
  | NotFound : PrimaryKey → LoadError
  | AlreadyDeleted : PrimaryKey → LoadError
  | ObjectStillLocked : PrimaryKey → LoadError
  | MissingReadKey : LoadError
  | SerializationError : LoadError
  | NoPrimaryKey : LoadError
deriving DecidableEq, Repr

/-- Commit-path errors, the tagged variants from the error taxonomy. -/
inductive CommitError where
  | SerializationError : CommitError
  | LintError : CommitError
  | ValidationError : CommitError
  | SinkError : CommitError
  | TransmitError : CommitError
  | TimeError : CommitError
deriving DecidableEq, Repr

/-- Durability scope of a transaction. -/
inductive Scope where
  | NoneScope : Scope
  | Local : Scope
  | Full : Scope
deriving DecidableEq, Repr

/-- A staged row as held by the DIO (`RowData` in the source): key, tree
link, payload bytes, authorization and format. -/
structure RowData where
  key : PrimaryKey
  tree : Option MetaTree
  data : List Nat
  auth : MetaAuthorization
  format : MessageFormat
deriving DecidableEq, Repr

/-- A typed row projected from a staged row or an event (`Row` in the
source); the payload stays as bytes in this embedding. -/
structure Row where
  key : PrimaryKey
  tree : Option MetaTree
  data : List Nat
  auth : MetaAuthorization
  format : MessageFormat
  created : Nat
  updated : Nat
deriving DecidableEq, Repr

/-- Modelled from the spec: `Row::from_row_data` projects a staged row
back into a typed row (deserialization; payloads stay as bytes here so
the projection always succeeds). -/
def Row.from_row_data (rd : RowData) : Except LoadError Row :=
  Except.ok
    { key := rd.key, tree := rd.tree, data := rd.data, auth := rd.auth,
      format := rd.format, created := 0, updated := 0 }

/-- The first authorization entry of a header, or the default. -/
def Metadata.get_auth (m : Metadata) : MetaAuthorization :=
  (m.core.findSome? (fun e => match e with
    | CoreMetadata.Authorization a => some a
    | _ => none)).getD MetaAuthorization.default

/-- The first tree entry of a header, or none. -/
def Metadata.get_tree (m : Metadata) : Option MetaTree :=
  m.core.findSome? (fun e => match e with
    | CoreMetadata.Tree t => some t
    | _ => none)

/-- Modelled from the spec: `Row::from_event` projects an event into a
typed row; it needs the `Data` key and the payload bytes, failing with
`SerializationError`/`NoPrimaryKey` when they are absent. -/
def Row.from_event (evt : EventData) (created updated : Nat) :
    Except LoadError Row :=
  match evt.meta.get_data_key with
  | none => Except.error LoadError.NoPrimaryKey
  | some k =>
    match evt.data_bytes with
    | none => Except.error LoadError.SerializationError
    | some bytes =>
      Except.ok
        { key := k, tree := evt.meta.get_tree, data := bytes,
          auth := evt.meta.get_auth, format := evt.format,
          created := created, updated := updated }

/-- Association-list lookup: first binding wins (models hash-map lookup
where insertion prepends, i.e. overwrites). -/
def alookup {α β : Type} [DecidableEq α] (k : α) :
    List (α × β) → Option β
  | [] => none
  | (a, b) :: rest => if a = k then some b else alookup k rest

/-- All values bound to a key in a multimap, in list order. -/
def multiGet {α β : Type} [DecidableEq α] (k : α) (l : List (α × β)) :
    List β :=
  l.filterMap (fun p => if p.1 = k then some p.2 else none)

/-- The DIO's transient transactional context (`DioState`). -/
structure DioState where
  store : List RowData
  cache_store_primary : List (PrimaryKey × RowData)
  cache_store_secondary : List (MetaCollection × PrimaryKey)
  cache_load : List (PrimaryKey × (EventData × EventLeaf))
  locked : List PrimaryKey
  deleted : List (PrimaryKey × RowData)
  pipe_unlock : List PrimaryKey
deriving DecidableEq, Repr

/-- `DioState::new()`: the empty transactional context. -/
def DioState.new : DioState :=
  { store := [], cache_store_primary := [], cache_store_secondary := [],
    cache_load := [], locked := [], deleted := [], pipe_unlock := [] }

/-- `DioState::is_locked`. -/
def DioState.is_locked (s : DioState) (k : PrimaryKey) : Bool :=
  decide (k ∈ s.locked)

/-- The chain facade and pipeline the DIO talks to, modelled as a bundle
of functions following the contracts of spec sections 4.D/4.E: primary
and secondary index lookup, raw event load, payload transform in both
directions, per-event and cross-event metadata lint, and the result the
transaction channel delivers. -/
structure ChainView where
  lookup_primary : PrimaryKey → Option EventLeaf
  lookup_secondary_raw : MetaCollection → Option (List PrimaryKey)
  loadEvent : EventLeaf → Except LoadError LoadedEvent
  data_as_overlay : Metadata → List Nat → Except LoadError (List Nat)
  metadata_lint_event : Metadata → Except CommitError (List CoreMetadata)
  data_as_underlay : Metadata → List Nat → Except CommitError (List Nat)
  metadata_lint_many : List EventData → Except CommitError (List CoreMetadata)
  feed_result : Except CommitError Unit

/-- Effectful map over a list, in order, stopping at the first error
(the shape of the source's for-loops with `?`). -/
def mapE {e a b : Type} (f : a → Except e b) : List a → Except e (List b)
  | [] => Except.ok []
  | x :: rest =>
    match f x with
    | Except.error err => Except.error err
    | Except.ok y =>
      match mapE f rest with
      | Except.error err => Except.error err
      | Except.ok ys => Except.ok (y :: ys)

/-- `load_many`, modelled from the spec contract: a batched read
preserving input order. -/
def ChainView.load_many (cv : ChainView) (leaves : List EventLeaf) :
    Except LoadError (List LoadedEvent) :=
  mapE cv.loadEvent leaves

/-- `Dio::load_from_event`: overlay-decode the payload, then cache the
event under its `Data` key and return the projected row; an event with
no `Data` key fails with `NoPrimaryKey`. -/
def Dio.load_from_event (cv : ChainView) (s : DioState) (data0 : EventData)
    (header : Metadata) (leaf : EventLeaf) :
    Except LoadError (Row × DioState) := do
  let data ← match data0.data_bytes with
    | some b => do
      let b2 ← cv.data_as_overlay header b
      pure { data0 with data_bytes := some b2 }
    | none => pure data0
  match header.get_data_key with
  | some k => do
    let row ← Row.from_event data leaf.created leaf.updated
    Except.ok (row, { s with cache_load := (k, (data, leaf)) :: s.cache_load })
  | none => Except.error LoadError.NoPrimaryKey

/-- `Dio::load_from_entry`: load the raw event for a leaf and hand it to
`load_from_event` (the header of an event is its metadata). -/
def Dio.load_from_entry (cv : ChainView) (s : DioState) (leaf : EventLeaf) :
    Except LoadError (Row × DioState) := do
  let evt ← cv.loadEvent leaf
  Dio.load_from_event cv s evt.data evt.data.meta leaf

/-- `Dio::load`: resolution in source order — locked set, staged-row
cache, load cache, deleted map, then the chain's primary index. -/
def Dio.load (cv : ChainView) (s : DioState) (key : PrimaryKey) :
    Except LoadError (Row × DioState) :=
  if s.is_locked key then
    Except.error (LoadError.ObjectStillLocked key)
  else
    match alookup key s.cache_store_primary with
    | some rd => (Row.from_row_data rd).map (fun row => (row, s))
    | none =>
      match alookup key s.cache_load with
      | some (ed, leaf) =>
        (Row.from_event ed leaf.created leaf.updated).map (fun row => (row, s))
      | none =>
        if (alookup key s.deleted).isSome then
          Except.error (LoadError.AlreadyDeleted key)
        else
          match cv.lookup_primary key with
          | none => Except.error (LoadError.NotFound key)
          | some leaf => Dio.load_from_entry cv s leaf

/-- First phase of `Dio::children`: walk the keys the chain's secondary
index returned, serving hits from the staged-row cache and the load
cache (marking them in `already`), skipping deleted keys, failing on
locked ones, and collecting the leaves still to load. -/
def childrenScan (cv : ChainView) (s : DioState) :
    List PrimaryKey → List PrimaryKey → List Row → List EventLeaf →
    Except LoadError (List PrimaryKey × List Row × List EventLeaf)
  | [], already, ret, toLoad => Except.ok (already, ret, toLoad)
  | k :: rest, already, ret, toLoad =>
    if s.is_locked k then
      Except.error (LoadError.ObjectStillLocked k)
    else
      match alookup k s.cache_store_primary with
      | some rd => do
        let row ← Row.from_row_data rd
        childrenScan cv s rest (already ++ [row.key]) (ret ++ [row]) toLoad
      | none =>
        match alookup k s.cache_load with
        | some (ed, leaf) => do
          let row ← Row.from_event ed leaf.created leaf.updated
          childrenScan cv s rest (already ++ [row.key]) (ret ++ [row]) toLoad
        | none =>
          if (alookup k s.deleted).isSome then
            childrenScan cv s rest already ret toLoad
          else
            match cv.lookup_primary k with
            | some leaf => childrenScan cv s rest already ret (toLoad ++ [leaf])
            | none => childrenScan cv s rest already ret toLoad

/-- Second phase of `Dio::children`: walk the freshly loaded events.
Mirrors the source exactly, including the load-cache branch that pushes
a result row and then falls through (it has no `continue`), so the same
iteration can also decode the event and push a second row. -/
def childrenLoadLoop (cv : ChainView) :
    List LoadedEvent → DioState → List PrimaryKey → List Row →
    Except LoadError (DioState × List PrimaryKey × List Row)
  | [], s, already, ret => Except.ok (s, already, ret)
  | evt :: rest, s, already, ret =>
    match evt.data.meta.get_data_key with
    | none => childrenLoadLoop cv rest s already ret
    | some k =>
      if s.is_locked k then
        Except.error (LoadError.ObjectStillLocked k)
      else
        match alookup k s.cache_store_primary with
        | some rd => do
          let row ← Row.from_row_data rd
          childrenLoadLoop cv rest s (already ++ [row.key]) (ret ++ [row])
        | none => do
          let acc ← match alookup k s.cache_load with
            | some (ed, leaf) => do
              let row ← Row.from_event ed leaf.created leaf.updated
              pure (already ++ [row.key], ret ++ [row])
            | none => pure (already, ret)
          if (alookup k s.deleted).isSome then
            childrenLoadLoop cv rest s acc.1 acc.2
          else
            match evt.data.data_bytes with
            | none => childrenLoadLoop cv rest s acc.1 acc.2
            | some b => do
              let b2 ← cv.data_as_overlay evt.data.meta b
              let data2 := { evt.data with data_bytes := some b2 }
              let row ← Row.from_event data2 evt.leaf.created evt.leaf.updated
              let s2 := { s with
                cache_load := (row.key, (data2, evt.leaf)) :: s.cache_load }
              childrenLoadLoop cv rest s2 (acc.1 ++ [row.key]) (acc.2 ++ [row])

/-- Third phase of `Dio::children`: walk the DIO's local staged
collection, skipping keys already returned or deleted, failing on
locked ones, and serving the rest from the staged-row cache. -/
def childrenLocalLoop (s : DioState) :
    List PrimaryKey → List PrimaryKey → List Row →
    Except LoadError (List PrimaryKey × List Row)
  | [], already, ret => Except.ok (already, ret)
  | a :: rest, already, ret =>
    if a ∈ already then childrenLocalLoop s rest already ret
    else if (alookup a s.deleted).isSome then childrenLocalLoop s rest already ret
    else if s.is_locked a then Except.error (LoadError.ObjectStillLocked a)
    else
      match alookup a s.cache_store_primary with
      | some rd => do
        let row ← Row.from_row_data rd
        childrenLocalLoop s rest (already ++ [row.key]) (ret ++ [row])
      | none => childrenLocalLoop s rest already ret

/-- `Dio::children`: union of the chain's secondary index and the local
staged collection, in the source's three phases. -/
def Dio.children (cv : ChainView) (s : DioState) (parent_id : PrimaryKey)
    (collection_id : Nat) : Except LoadError (List Row × DioState) :=
  let key : MetaCollection :=
    { parent_id := parent_id, collection_id := collection_id }
  match cv.lookup_secondary_raw key with
  | none => Except.ok ([], s)
  | some keys => do
    let scanned ← childrenScan cv s keys [] [] []
    let evts ← cv.load_many scanned.2.2
    let looped ← childrenLoadLoop cv evts s scanned.1 scanned.2.1
    let vec := multiGet key looped.1.cache_store_secondary
    let fin ← childrenLocalLoop looped.1 vec looped.2.1 looped.2.2
    Except.ok (fin.2, looped.1)

/-- A batch handed to the pipe: scope, ordered events, and whether a
result channel was attached. -/
structure Transaction where
  scope : Scope
  events : List EventData
  has_result : Bool
deriving DecidableEq, Repr

/-- Outcome of `Dio::commit`: the value returned to the caller, the
transaction fed to the pipe (none when nothing was fed), and the DIO
state afterwards. -/
structure CommitResult where
  result : Except CommitError Unit
  fed : Option Transaction
  state : DioState

/-- The tree-link entry of a row's header, when the row has one. -/
def treeMeta : Option MetaTree → List CoreMetadata
  | some t => [CoreMetadata.Tree t]
  | none => []

/-- The header commit builds for a stored row before linting: a fresh
`Data` entry, the authorization, and the optional tree link. -/
def dataEventMeta (row : RowData) : Metadata :=
  { core := (Metadata.for_data row.key).core ++
    [CoreMetadata.Authorization row.auth] ++ treeMeta row.tree }

/-- Commit's per-stored-row event construction: fresh `Data` header,
authorization, optional tree link, pipeline lint extras, then the
underlay (encryption) transform of the payload. -/
def buildDataEvent (cv : ChainView) (fmt : MessageFormat) (row : RowData) :
    Except CommitError EventData :=
  match cv.metadata_lint_event (dataEventMeta row) with
  | Except.error e => Except.error e
  | Except.ok extra =>
    match cv.data_as_underlay { core := (dataEventMeta row).core ++ extra }
        row.data with
    | Except.error e => Except.error e
    | Except.ok bytes =>
      Except.ok { meta := { core := (dataEventMeta row).core ++ extra },
                  data_bytes := some bytes, format := fmt }

/-- The header commit builds for a deleted key before linting: the
authorization and the optional tree link (no `Data` entry). -/
def tombEventMeta (row : RowData) : Metadata :=
  { core := [CoreMetadata.Authorization row.auth] ++ treeMeta row.tree }

/-- Commit's per-deleted-key event construction: empty header,
authorization, optional tree link, lint extras, then the tombstone
entry; tombstone events carry no payload. -/
def buildTombstoneEvent (cv : ChainView) (fmt : MessageFormat)
    (key : PrimaryKey) (row : RowData) : Except CommitError EventData :=
  match cv.metadata_lint_event (tombEventMeta row) with
  | Except.error e => Except.error e
  | Except.ok extra =>
    Except.ok { meta := Metadata.add_tombstone
                  { core := (tombEventMeta row).core ++ extra } key,
                data_bytes := none, format := fmt }

/-- Whether a commit attaches a result channel to its transaction: it
does exactly when the scope is not `None`. -/
def scopeHasResult : Scope → Bool
  | Scope.NoneScope => false
  | _ => true

/-- What commit returns to the caller: for scope `None` it does not
wait and returns `Ok(())`; otherwise it blocks on the result channel
and returns what arrives there. -/
def scopeAwait (r : Except CommitError Unit) :
    Scope → Except CommitError Unit
  | Scope.NoneScope => Except.ok ()
  | _ => r

/-- `Dio::commit`.  Empty staging returns at once.  Otherwise the stored
rows are drained (the vector is emptied whether or not an error cuts
the loop short, as `Vec::drain` removes the rest on drop), tombstones
are built from the deleted map (which is only iterated, never cleared),
the cross-event lint may prepend a metadata-only event, and the batch
is fed as one transaction; the caller blocks on the result channel
exactly when the scope is not `None`. -/
def Dio.commit (cv : ChainView) (scope : Scope) (fmt : MessageFormat)
    (s : DioState) : CommitResult :=
  if s.store.isEmpty && s.deleted.isEmpty then
    { result := Except.ok (), fed := none, state := s }
  else
    match mapE (buildDataEvent cv fmt) s.store with
    | Except.error e =>
      { result := Except.error e, fed := none, state := { s with store := [] } }
    | Except.ok dataEvts =>
      match mapE (fun kr => buildTombstoneEvent cv fmt kr.1 kr.2) s.deleted with
      | Except.error e =>
        { result := Except.error e, fed := none, state := { s with store := [] } }
      | Except.ok tombEvts =>
        match cv.metadata_lint_many (dataEvts ++ tombEvts) with
        | Except.error e =>
          { result := Except.error e, fed := none, state := { s with store := [] } }
        | Except.ok lintMeta =>
          { result := scopeAwait cv.feed_result scope,
            fed := some
              { scope := scope,
                events := if lintMeta.length > 0 then
                    ({ meta := { core := lintMeta }, data_bytes := none,
                       format := fmt } : EventData) :: (dataEvts ++ tombEvts)
                  else dataEvts ++ tombEvts,
                has_result := scopeHasResult scope },
            state := { s with store := [] } }

/-- Time-validation errors from src/src/time.rs. -/
inductive TimeError where
  | OutOfBounds : Nat → TimeError
  | NoTimestamp : TimeError
deriving DecidableEq, Repr

/-- Validation errors (spec error taxonomy). -/
inductive ValidationError where
  | Time : TimeError → ValidationError
  | MissingSignature : ValidationError
  | UnknownKey : ValidationError
deriving DecidableEq, Repr

/-- Validator verdicts. -/
inductive ValidationResult where
  | Allow : ValidationResult
  | Deny : ValidationResult
  | Abstain : ValidationResult
deriving DecidableEq, Repr

/-- The timestamp enforcer's validator-relevant state: the monotone
cursor and the configured tolerance, both in milliseconds. -/
structure TimestampEnforcer where
  cursor : Nat
  tolerance : Nat
deriving DecidableEq, Repr

/-- `TimestampEnforcer::new` (validator-relevant part): the cursor
starts at the tolerance. -/
def TimestampEnforcer.new (tolerance_ms : Nat) : TimestampEnforcer :=
  { cursor := tolerance_ms, tolerance := tolerance_ms }

/-- `TimestampEnforcer::get_timestamp`: the first `Timestamp` entry of a
header, or none. -/
def TimestampEnforcer.get_timestamp (meta : Metadata) : Option MetaTimestamp :=
  meta.core.findSome? (fun e => match e with
    | CoreMetadata.Timestamp t => some t
    | _ => none)

/-- The sink capability: advance the cursor to the maximum timestamp
observed. -/
def TimestampEnforcer.feed (te : TimestampEnforcer) (meta : Metadata) :
    TimestampEnforcer :=
  match TimestampEnforcer.get_timestamp meta with
  | some t =>
    if te.cursor < t.time_since_epoch_ms then
      { te with cursor := t.time_since_epoch_ms }
    else te
  | none => te

/-- `TimestampEnforcer::validate`.  `now` is the NTP-adjusted current
time in milliseconds (`current_timestamp()`, assumed to succeed).  An
event without a timestamp is rejected with `NoTimestamp` iff its header
needs a signature, and abstained otherwise; an event with a timestamp
is rejected with `OutOfBounds` iff the timestamp falls outside
`[cursor - tolerance, now + tolerance]`. -/
def TimestampEnforcer.validate (te : TimestampEnforcer) (now : Nat)
    (meta : Metadata) : Except ValidationError ValidationResult :=
  match TimestampEnforcer.get_timestamp meta with
  | none =>
    match meta.needs_signature with
    | true => Except.error (ValidationError.Time TimeError.NoTimestamp)
    | false => Except.ok ValidationResult.Abstain
  | some t =>
    let timestamp := t.time_since_epoch_ms
    let min_timestamp := te.cursor - te.tolerance
    let max_timestamp := now + te.tolerance
    if timestamp < min_timestamp || timestamp > max_timestamp then
      Except.error (ValidationError.Time (TimeError.OutOfBounds timestamp))
    else
      Except.ok ValidationResult.Abstain

/-- Account states from the auth model. -/
inductive UserStatus where
  | Locked : Nat → UserStatus
  | Unverified : UserStatus
  | Nominal : UserStatus
deriving DecidableEq, Repr

/-- The user row, reduced to the fields `process_login` consults; key
material is modelled by numeric identifiers. -/
structure User where
  status : UserStatus
  nominal_read : Nat
  nominal_write : Nat
  sudo_read : Nat
  sudo_write : Nat
deriving DecidableEq, Repr

/-- The sudo row: the authenticator secret. -/
structure Sudo where
  secret : String
deriving DecidableEq, Repr

/-- A login request: email, password-derived secret, optional
authenticator code. -/
structure LoginRequest where
  email : String
  secret : Nat
  code : Option String
deriving DecidableEq, Repr

/-- A successful login response. -/
structure LoginResponse where
  user_key : PrimaryKey
  nominal_read : Nat
  nominal_write : Nat
  sudo_read : Nat
  sudo_write : Nat
  message_of_the_day : Option String
deriving DecidableEq, Repr

/-- Login failures (spec error taxonomy; `OtherError` stands for the
`bail!` catch-all). -/
inductive LoginFailed where
  | NoMasterKey : LoginFailed
  | UserNotFound : String → LoginFailed
  | AccountLocked : Nat → LoginFailed
  | Unverified : String → LoginFailed
  | WrongPasswordOrCode : LoginFailed
  | OtherError : LoginFailed
deriving DecidableEq, Repr

/-- The collaborators `process_login` consults, as oracles: the master
session's read key, the outcome of loading the user row through the
super-session, the outcome of loading the sudo row, the authenticator
check, and the current time. -/
structure AuthCtx where
  master_key : Option Nat
  load_user : Except LoadError User
  load_sudo : Except LoadError (Option Sudo)
  verify_code : String → String → Bool
  now : Nat

/-- The response built on successful login: it carries the user's
nominal and sudo key identifiers. -/
def mkLoginResponse (request : LoginRequest) (user : User) : LoginResponse :=
  { user_key := PrimaryKey.ofString request.email,
    nominal_read := user.nominal_read,
    nominal_write := user.nominal_write,
    sudo_read := user.sudo_read,
    sudo_write := user.sudo_write,
    message_of_the_day := none }

/-- The tail of `process_login` after the status checks: without a code
the response is returned; with a code, the sudo row is loaded (the same
error mapping as for the user row, and a missing row is `UserNotFound`)
and the authenticator code is checked. -/
def process_login_sudo (ctx : AuthCtx) (request : LoginRequest)
    (user : User) : Except LoginFailed LoginResponse :=
  match request.code with
  | none => Except.ok (mkLoginResponse request user)
  | some code =>
    match ctx.load_sudo with
    | Except.error (LoadError.NotFound _) =>
      Except.error (LoginFailed.UserNotFound request.email)
    | Except.error LoadError.MissingReadKey =>
      Except.error LoginFailed.WrongPasswordOrCode
    | Except.error _ => Except.error LoginFailed.OtherError
    | Except.ok none => Except.error (LoginFailed.UserNotFound request.email)
    | Except.ok (some sd) =>
      if ctx.verify_code sd.secret code then
        Except.ok (mkLoginResponse request user)
      else
        Except.error LoginFailed.WrongPasswordOrCode

/-- `AuthService::process_login`: fail `NoMasterKey` without a master
key; map user-row load failures (`NotFound` to `UserNotFound`,
`MissingReadKey` to `WrongPasswordOrCode`, anything else bails); check
the account status (`Locked` until a future instant, `Unverified`);
then handle the optional authenticator code and answer. -/
def process_login (ctx : AuthCtx) (request : LoginRequest) :
    Except LoginFailed LoginResponse :=
  match ctx.master_key with
  | none => Except.error LoginFailed.NoMasterKey
  | some _ =>
    match ctx.load_user with
    | Except.error (LoadError.NotFound _) =>
      Except.error (LoginFailed.UserNotFound request.email)
    | Except.error LoadError.MissingReadKey =>
      Except.error LoginFailed.WrongPasswordOrCode
    | Except.error _ => Except.error LoginFailed.OtherError
    | Except.ok user =>
      match user.status with
      | UserStatus.Locked untl =>
        if ctx.now < untl then
          Except.error (LoginFailed.AccountLocked (untl - ctx.now))
        else
          process_login_sudo ctx request user
      | UserStatus.Unverified =>
        Except.error (LoginFailed.Unverified request.email)
      | UserStatus.Nominal => process_login_sudo ctx request user

/-- Group-removal failures. -/
inductive GroupRemoveFailed where
  | GroupNotFound : GroupRemoveFailed
  | NoMasterKey : GroupRemoveFailed
  | OtherError : GroupRemoveFailed
deriving DecidableEq, Repr

/-- The collaborators `process_group_remove` consults: the outcome of
loading the group row at a key, the outcome of `try_load` of an advert
at a key (yielding the key of the loaded object, which is what
`delete()` retires), and the commit outcome. -/
structure GroupRemoveCtx where
  load_group : PrimaryKey → Except LoadError Unit
  try_load_advert : PrimaryKey → Except LoadError (Option PrimaryKey)
  commit_result : Except CommitError Unit

/-- The observable outcome of `process_group_remove`: the response, the
keys deleted in the DIO transaction, and the keys at which the advert
lookup was performed. -/
structure GroupRemoveOutcome where
  result : Except GroupRemoveFailed PrimaryKey
  deleted : List PrimaryKey
  advert_queries : List PrimaryKey
deriving Repr

/-- `AuthService::process_group_remove`: load the group at the key
hashed from the group name and delete it; compute the advert key from
"advert:" ++ group but — as in the source — invoke `try_load` with the
group key instead; delete whatever that lookup returned; commit. -/
def process_group_remove (ctx : GroupRemoveCtx) (group : String) :
    GroupRemoveOutcome :=
  let group_key := PrimaryKey.ofString group
  match ctx.load_group group_key with
  | Except.error (LoadError.NotFound _) =>
    { result := Except.error GroupRemoveFailed.GroupNotFound,
      deleted := [], advert_queries := [] }
  | Except.error LoadError.MissingReadKey =>
    { result := Except.error GroupRemoveFailed.NoMasterKey,
      deleted := [], advert_queries := [] }
  | Except.error _ =>
    { result := Except.error GroupRemoveFailed.OtherError,
      deleted := [], advert_queries := [] }
  | Except.ok () =>
    let _advert_key := PrimaryKey.ofString ("advert:" ++ group)
    match ctx.try_load_advert group_key with
    | Except.error _ =>
      { result := Except.error GroupRemoveFailed.OtherError,
        deleted := [group_key], advert_queries := [group_key] }
    | Except.ok found =>
      let dels := match found with
        | some k => [group_key, k]
        | none => [group_key]
      match ctx.commit_result with
      | Except.error _ =>
        { result := Except.error GroupRemoveFailed.OtherError,
          deleted := dels, advert_queries := [group_key] }
      | Except.ok () =>
        { result := Except.ok group_key,
          deleted := dels, advert_queries := [group_key] }

/-- The write side of a split stream, by variant. -/
inductive StreamVariant where
  | Tcp : StreamVariant
  | WebSocket : StreamVariant
  | HyperWebSocket : StreamVariant
  | Custom : StreamVariant
deriving DecidableEq, Repr

/-- Explicit errors raised by the stream writers. -/
inductive IoError where
  | InvalidData : IoError
deriving DecidableEq, Repr

/-- What a write call put on the wire (for the socket variants, the
bytes written; for the WebSocket variants, the payload of the single
binary message) together with the `total_sent` count the source
returns. -/
structure WireWrite where
  wire : List Nat
  total_sent : Nat
deriving DecidableEq, Repr

/-- Big-endian 32-bit encoding of a length. -/
def be32 (n : Nat) : List Nat :=
  [n / 16777216 % 256, n / 65536 % 256, n / 256 % 256, n % 256]

/-- `StreamTx::write_32bit`: TCP writes a 4-byte big-endian length
prefix then the payload, rejecting buffers over `u32::MAX` bytes; the
WebSocket variants send the payload as one binary message with no
prefix; the custom variant writes the raw payload with no prefix. -/
def write_32bit (v : StreamVariant) (buf : List Nat) :
    Except IoError WireWrite :=
  match v with
  | StreamVariant.Tcp =>
    if buf.length > 4294967295 then Except.error IoError.InvalidData
    else Except.ok { wire := be32 buf.length ++ buf,
                     total_sent := 4 + buf.length }
  | StreamVariant.WebSocket =>
    Except.ok { wire := buf, total_sent := buf.length }
  | StreamVariant.HyperWebSocket =>
    Except.ok { wire := buf, total_sent := buf.length }
  | StreamVariant.Custom =>
    if buf.length > 4294967295 then Except.error IoError.InvalidData
    else Except.ok { wire := buf, total_sent := buf.length }

/-- `StreamTx::write_8bit`: only TCP enforces the 255-byte bound and
writes the one-byte length prefix; every other variant delegates to
`write_32bit`. -/
def write_8bit (v : StreamVariant) (buf : List Nat) :
    Except IoError WireWrite :=
  match v with
  | StreamVariant.Tcp =>
    if buf.length > 255 then Except.error IoError.InvalidData
    else Except.ok { wire := buf.length :: buf, total_sent := 1 + buf.length }
  | _ => write_32bit v buf

/-- A chain view whose pipeline is the identity and whose indexes are
empty; used to evaluate the embedding on concrete inputs. -/
def cvTriv : ChainView :=
  { lookup_primary := fun _ => none,
    lookup_secondary_raw := fun _ => none,
    loadEvent := fun _ => Except.error LoadError.SerializationError,
    data_as_overlay := fun _ b => Except.ok b,
    metadata_lint_event := fun _ => Except.ok [],
    data_as_underlay := fun _ b => Except.ok b,
    metadata_lint_many := fun _ => Except.ok [],
    feed_result := Except.ok () }

/-- A concrete key for evaluations. -/
def kW : PrimaryKey := PrimaryKey.gen 1

/-- A concrete staged row for evaluations. -/
def rowW : RowData :=
  { key := kW, tree := none, data := [1, 2], auth := MetaAuthorization.default,
    format := MessageFormat.binary }

/-- A state in which `kW` is locked. -/
def sLockedW : DioState := { DioState.new with locked := [kW] }

/-- A state in which `kW` has a staged row. -/
def sStagedW : DioState :=
  { DioState.new with cache_store_primary := [(kW, rowW)] }

/-- A concrete cached event for evaluations. -/
def evtW : EventData :=
  { meta := { core := [CoreMetadata.Data kW] }, data_bytes := some [9],
    format := MessageFormat.binary }

/-- A state in which `kW` sits in the load cache. -/
def sCachedW : DioState :=
  { DioState.new with cache_load := [(kW, (evtW, { created := 4, updated := 5 }))] }

/-- A state in which `kW` has been deleted. -/
def sDeletedW : DioState := { DioState.new with deleted := [(kW, rowW)] }

/-- A state holding one staged row (for commit evaluations). -/
def sStoreW : DioState := { DioState.new with store := [rowW] }

/-- A state holding one staged row and one deleted key. -/
def sStoreDelW : DioState :=
  { DioState.new with
    store := [rowW]
    deleted := [(PrimaryKey.gen 2, rowW)] }

/-- A chain view whose transaction result channel reports a transmit
error. -/
def cvFeedErr : ChainView :=
  { cvTriv with feed_result := Except.error CommitError.TransmitError }

/-- A chain view whose cross-event lint emits one entry. -/
def cvLintW : ChainView :=
  { cvTriv with metadata_lint_many :=
      fun _ => Except.ok [CoreMetadata.Author "batch"] }

/-- The duplicated child key of the `children` evaluation. -/
def kC3 : PrimaryKey := PrimaryKey.gen 1

/-- The leaf the chain's primary index returns for `kC3`. -/
def leafC3 : EventLeaf := { created := 0, updated := 0 }

/-- The event the chain returns for `kC3`. -/
def evtC3 : EventData :=
  { meta := { core := [CoreMetadata.Data kC3] }, data_bytes := some [7],
    format := MessageFormat.binary }

/-- A chain view whose secondary index lists `kC3` twice under parent
`gen 0`, collection 5 — e.g. two index entries for the same key. -/
def cvC3 : ChainView :=
  { cvTriv with
    lookup_primary := fun k => if k = kC3 then some leafC3 else none
    lookup_secondary_raw := fun c =>
      if c = { parent_id := PrimaryKey.gen 0, collection_id := 5 } then
        some [kC3, kC3]
      else none
    loadEvent := fun _ => Except.ok { data := evtC3, leaf := leafC3 } }

/-- Group-removal collaborators for the failing input: the group row
loads fine at any key, and an advert exists exactly at the advert key
hashed from "advert:mygroup". -/
def grCtxW : GroupRemoveCtx :=
  { load_group := fun _ => Except.ok (),
    try_load_advert := fun k =>
      if k = PrimaryKey.ofString "advert:mygroup" then
        Except.ok (some (PrimaryKey.ofString "advert:mygroup"))
      else Except.ok none,
    commit_result := Except.ok () }

/-- A user row in nominal state, for login evaluations. -/
def userW : User :=
  { status := UserStatus.Nominal, nominal_read := 11, nominal_write := 12,
    sudo_read := 13, sudo_write := 14 }

/-- A login request without an authenticator code. -/
def reqW : LoginRequest := { email := "alice@example.com", secret := 7, code := none }

/-- The data event commit builds from `rowW` under the trivial
pipeline. -/
def evtDW : EventData :=
  { meta := { core := [CoreMetadata.Data kW,
      CoreMetadata.Authorization MetaAuthorization.default] },
    data_bytes := some [1, 2], format := MessageFormat.binary }

/-- The tombstone event commit builds for key `gen 2` under the trivial
pipeline. -/
def evtTW : EventData :=
  { meta := { core := [CoreMetadata.Authorization MetaAuthorization.default,
      CoreMetadata.Tombstone (PrimaryKey.gen 2)] },
    data_bytes := none, format := MessageFormat.binary }

/-- Login collaborators with a master key and a successful user load. -/
def ctxOkW : AuthCtx :=
  { master_key := some 1, load_user := Except.ok userW,
    load_sudo := Except.ok none, verify_code := fun _ _ => false, now := 0 }

/-- Claim C9: a DIO with no stored rows and no deleted keys commits to
`Ok(())` immediately, feeds nothing to the pipe, blocks on no result
channel, and leaves the whole state (load cache and lock set included)
unchanged, whatever the scope. -/
theorem C9_commit_empty_noop (cv : ChainView) (scope : Scope)
    (fmt : MessageFormat) (s : DioState)
    (hs : s.store = []) (hd : s.deleted = []) :
    Dio.commit cv scope fmt s =
      { result := Except.ok (), fed := none, state := s } := by
  simp [Dio.commit, hs, hd]

/-- Witness for C9 at the empty state under the trivial chain view. -/
theorem C9_commit_empty_noop_witness :
    Dio.commit cvTriv Scope.Local MessageFormat.binary DioState.new =
      { result := Except.ok (), fed := none, state := DioState.new } :=
  C9_commit_empty_noop cvTriv Scope.Local MessageFormat.binary DioState.new
    rfl rfl

/-- Claim C2: `Dio::load` resolves a key in this order — the locked set
(`ObjectStillLocked`), the staged-row cache (a DAO from the staged
row), the load cache (a DAO from the cached event), the deleted map
(`AlreadyDeleted`), then the chain's primary index, whose miss yields
`NotFound`. -/
theorem C2_load_resolution_order (cv : ChainView) (s : DioState)
    (key : PrimaryKey) :
    (s.is_locked key = true →
      Dio.load cv s key = Except.error (LoadError.ObjectStillLocked key)) ∧
    (∀ rd, s.is_locked key = false →
      alookup key s.cache_store_primary = some rd →
      Dio.load cv s key =
        (Row.from_row_data rd).map (fun row => (row, s))) ∧
    (∀ ed leaf, s.is_locked key = false →
      alookup key s.cache_store_primary = none →
      alookup key s.cache_load = some (ed, leaf) →
      Dio.load cv s key =
        (Row.from_event ed leaf.created leaf.updated).map
          (fun row => (row, s))) ∧
    (s.is_locked key = false →
      alookup key s.cache_store_primary = none →
      alookup key s.cache_load = none →
      (alookup key s.deleted).isSome = true →
      Dio.load cv s key = Except.error (LoadError.AlreadyDeleted key)) ∧
    (s.is_locked key = false →
      alookup key s.cache_store_primary = none →
      alookup key s.cache_load = none →
      (alookup key s.deleted).isSome = false →
      cv.lookup_primary key = none →
      Dio.load cv s key = Except.error (LoadError.NotFound key)) := by
  refine ⟨?_, ?_, ?_, ?_, ?_⟩
  · intro h; simp [Dio.load, h]
  · intro rd h1 h2; simp [Dio.load, h1, h2]
  · intro ed leaf h1 h2 h3; simp [Dio.load, h1, h2, h3]
  · intro h1 h2 h3 h4; simp [Dio.load, h1, h2, h3, h4]
  · intro h1 h2 h3 h4 h5; simp [Dio.load, h1, h2, h3, h4, h5]

/-- Witness for C2: each of the five resolution branches at a concrete
state. -/
theorem C2_load_resolution_order_witness :
    Dio.load cvTriv sLockedW kW =
      Except.error (LoadError.ObjectStillLocked kW) ∧
    Dio.load cvTriv sStagedW kW =
      (Row.from_row_data rowW).map (fun row => (row, sStagedW)) ∧
    Dio.load cvTriv sCachedW kW =
      (Row.from_event evtW 4 5).map (fun row => (row, sCachedW)) ∧
    Dio.load cvTriv sDeletedW kW =
      Except.error (LoadError.AlreadyDeleted kW) ∧
    Dio.load cvTriv DioState.new kW =
      Except.error (LoadError.NotFound kW) :=
  ⟨(C2_load_resolution_order cvTriv sLockedW kW).1 (by decide),
   (C2_load_resolution_order cvTriv sStagedW kW).2.1 rowW (by decide) rfl,
   (C2_load_resolution_order cvTriv sCachedW kW).2.2.1 evtW
     { created := 4, updated := 5 } (by decide) rfl rfl,
   (C2_load_resolution_order cvTriv sDeletedW kW).2.2.2.1
     (by decide) rfl rfl rfl,
   (C2_load_resolution_order cvTriv DioState.new kW).2.2.2.2
     (by decide) rfl rfl rfl rfl⟩

/-- Claim C4: for an event carrying a timestamp, the validator rejects
with `Time(OutOfBounds)` iff the timestamp is strictly below
`cursor - tolerance` or strictly above `now + tolerance` (with `now`
the NTP-adjusted current time), and every timestamp inside those bounds
passes (the validator abstains).  The hypothesis `tolerance ≤ cursor`
is the enforcer's maintained invariant (the cursor starts at the
tolerance and only grows). -/
theorem C4_timestamp_bounds (te : TimestampEnforcer) (now : Nat)
    (meta : Metadata) (t : MetaTimestamp)
    (hts : TimestampEnforcer.get_timestamp meta = some t)
    (_htol : te.tolerance ≤ te.cursor) :
    (TimestampEnforcer.validate te now meta =
        Except.error (ValidationError.Time
          (TimeError.OutOfBounds t.time_since_epoch_ms)) ↔
      (t.time_since_epoch_ms < te.cursor - te.tolerance ∨
        now + te.tolerance < t.time_since_epoch_ms)) ∧
    ((te.cursor - te.tolerance ≤ t.time_since_epoch_ms ∧
        t.time_since_epoch_ms ≤ now + te.tolerance) →
      TimestampEnforcer.validate te now meta =
        Except.ok ValidationResult.Abstain) := by
  unfold TimestampEnforcer.validate
  rw [hts]
  by_cases hc : (t.time_since_epoch_ms < te.cursor - te.tolerance ∨
      now + te.tolerance < t.time_since_epoch_ms)
  · constructor
    · simp only [gt_iff_lt]
      rw [if_pos (by simpa [gt_iff_lt] using hc)]
      simp [hc]
    · intro hin
      rcases hc with hc | hc <;> omega
  · constructor
    · simp only [gt_iff_lt]
      rw [if_neg (by simpa [gt_iff_lt] using hc)]
      simp [hc]
    · intro _
      simp only [gt_iff_lt]
      rw [if_neg (by simpa [gt_iff_lt] using hc)]

/-- Witness for C4: with cursor = tolerance = 200 and now = 1000, the
timestamp 500 lies inside the window and the validator abstains. -/
theorem C4_timestamp_bounds_witness :
    TimestampEnforcer.validate (TimestampEnforcer.new 200) 1000
      { core := [CoreMetadata.Timestamp { time_since_epoch_ms := 500 }] } =
      Except.ok ValidationResult.Abstain :=
  (C4_timestamp_bounds (TimestampEnforcer.new 200) 1000
    { core := [CoreMetadata.Timestamp { time_since_epoch_ms := 500 }] }
    { time_since_epoch_ms := 500 } rfl (by decide)).2 (by decide)

/-- Claim C10: an event without a `Timestamp` header skips the bounds
check entirely (the verdict does not depend on the cursor or the
clock); it is rejected with `Time(NoTimestamp)` iff the header needs a
signature, and abstained otherwise. -/
theorem C10_no_timestamp (te te2 : TimestampEnforcer) (now now2 : Nat)
    (meta : Metadata)
    (h : TimestampEnforcer.get_timestamp meta = none) :
    TimestampEnforcer.validate te now meta =
      TimestampEnforcer.validate te2 now2 meta ∧
    (TimestampEnforcer.validate te now meta =
        Except.error (ValidationError.Time TimeError.NoTimestamp) ↔
      meta.needs_signature = true) ∧
    (meta.needs_signature = false →
      TimestampEnforcer.validate te now meta =
        Except.ok ValidationResult.Abstain) := by
  unfold TimestampEnforcer.validate
  rw [h]
  cases hn : meta.needs_signature <;> simp

/-- Witness for C10: a signature-requiring header without a timestamp is
rejected with `NoTimestamp`; an unrestricted one is abstained. -/
theorem C10_no_timestamp_witness :
    TimestampEnforcer.validate (TimestampEnforcer.new 200) 7
      { core := [CoreMetadata.Authorization
        { allow_read := [3], allow_write := [], implicit_authority := "" }] } =
      Except.error (ValidationError.Time TimeError.NoTimestamp) ∧
    TimestampEnforcer.validate (TimestampEnforcer.new 200) 7
      { core := [] } = Except.ok ValidationResult.Abstain :=
  ⟨(C10_no_timestamp (TimestampEnforcer.new 200) (TimestampEnforcer.new 200)
      7 7 { core := [CoreMetadata.Authorization
        { allow_read := [3], allow_write := [], implicit_authority := "" }] }
      rfl).2.1.mpr (by decide),
   (C10_no_timestamp (TimestampEnforcer.new 200) (TimestampEnforcer.new 200)
      7 7 { core := [] } rfl).2.2 rfl⟩

/-- Every successful path through the sudo stage answers with the
response built from the user row. -/
theorem login_sudo_ok (ctx : AuthCtx) (request : LoginRequest) (user : User)
    (resp : LoginResponse)
    (h : process_login_sudo ctx request user = Except.ok resp) :
    resp = mkLoginResponse request user := by
  unfold process_login_sudo at h
  split at h
  · exact (Except.ok.inj h).symm
  · split at h
    · simp at h
    · simp at h
    · simp at h
    · simp at h
    · split at h
      · exact (Except.ok.inj h).symm
      · simp at h

/-- Claim C6: `process_login` maps a `NotFound` user-row load to
`UserNotFound`, a `MissingReadKey` decryption failure (wrong password)
to `WrongPasswordOrCode`, a loaded-but-`Unverified` account to
`Unverified(email)`, and every successful response carries the user's
`nominal_read` and `nominal_write` keys. -/
theorem C6_login_error_mapping (ctx : AuthCtx) (request : LoginRequest)
    (mk : Nat) (hmk : ctx.master_key = some mk) :
    (∀ pk, ctx.load_user = Except.error (LoadError.NotFound pk) →
      process_login ctx request =
        Except.error (LoginFailed.UserNotFound request.email)) ∧
    (ctx.load_user = Except.error LoadError.MissingReadKey →
      process_login ctx request =
        Except.error LoginFailed.WrongPasswordOrCode) ∧
    (∀ user, ctx.load_user = Except.ok user →
      user.status = UserStatus.Unverified →
      process_login ctx request =
        Except.error (LoginFailed.Unverified request.email)) ∧
    (∀ user resp, ctx.load_user = Except.ok user →
      process_login ctx request = Except.ok resp →
      resp.nominal_read = user.nominal_read ∧
      resp.nominal_write = user.nominal_write) := by
  refine ⟨?_, ?_, ?_, ?_⟩
  · intro pk h; simp [process_login, hmk, h]
  · intro h; simp [process_login, hmk, h]
  · intro user h hs; simp [process_login, hmk, h, hs]
  · intro user resp h hok
    unfold process_login at hok
    rw [hmk, h] at hok
    simp at hok
    have hresp : resp = mkLoginResponse request user := by
      cases hstat : user.status with
      | Locked untl =>
        rw [hstat] at hok
        simp at hok
        by_cases hnow : ctx.now < untl
        · rw [if_pos hnow] at hok; simp at hok
        · rw [if_neg hnow] at hok
          exact login_sudo_ok ctx request user resp hok
      | Unverified =>
        rw [hstat] at hok
        simp at hok
      | Nominal =>
        rw [hstat] at hok
        simp at hok
        exact login_sudo_ok ctx request user resp hok
    rw [hresp]
    exact ⟨rfl, rfl⟩

/-- Witness for C6: the three error mappings and a successful login at
concrete collaborators. -/
theorem C6_login_error_mapping_witness :
    process_login
      { ctxOkW with load_user := Except.error (LoadError.NotFound kW) }
      reqW = Except.error (LoginFailed.UserNotFound "alice@example.com") ∧
    process_login
      { ctxOkW with load_user := Except.error LoadError.MissingReadKey }
      reqW = Except.error LoginFailed.WrongPasswordOrCode ∧
    process_login
      { ctxOkW with
        load_user := Except.ok { userW with status := UserStatus.Unverified } }
      reqW = Except.error (LoginFailed.Unverified "alice@example.com") ∧
    ((mkLoginResponse reqW userW).nominal_read = userW.nominal_read ∧
      (mkLoginResponse reqW userW).nominal_write = userW.nominal_write) :=
  ⟨(C6_login_error_mapping
      { ctxOkW with load_user := Except.error (LoadError.NotFound kW) }
      reqW 1 rfl).1 kW rfl,
   (C6_login_error_mapping
      { ctxOkW with load_user := Except.error LoadError.MissingReadKey }
      reqW 1 rfl).2.1 rfl,
   (C6_login_error_mapping
      { ctxOkW with
        load_user := Except.ok { userW with status := UserStatus.Unverified } }
      reqW 1 rfl).2.2.1 { userW with status := UserStatus.Unverified } rfl rfl,
   (C6_login_error_mapping ctxOkW reqW 1 rfl).2.2.2 userW
     (mkLoginResponse reqW userW) rfl rfl⟩

/-- Counterexample to C7 as stated: on a WebSocket stream a 300-byte
buffer is not rejected — `write_8bit` delegates to `write_32bit`, which
sends the payload as one binary message, so no error is returned and no
one-byte length prefix is transmitted. -/
theorem C7_counterexample :
    300 > 255 ∧
    write_8bit StreamVariant.WebSocket (List.replicate 300 0) =
      Except.ok { wire := List.replicate 300 0, total_sent := 300 } := by
  refine ⟨by norm_num, ?_⟩
  show write_32bit StreamVariant.WebSocket (List.replicate 300 0) =
    Except.ok { wire := List.replicate 300 0, total_sent := 300 }
  simp only [write_32bit, List.length_replicate]

/-- Claim C7 (amended): only the TCP variant of `write_8bit` enforces
the 255-byte bound and transmits a one-byte length prefix followed by
the payload; the WebSocket variants delegate to `write_32bit` and send
the payload as a single binary message with no prefix and no 255-byte
bound, and the custom variant writes the raw payload with no prefix,
bounded only by `u32::MAX`. -/
theorem C7_write_8bit_amended (buf : List Nat) :
    (buf.length > 255 →
      write_8bit StreamVariant.Tcp buf = Except.error IoError.InvalidData) ∧
    (buf.length ≤ 255 →
      write_8bit StreamVariant.Tcp buf =
        Except.ok { wire := buf.length :: buf, total_sent := 1 + buf.length }) ∧
    write_8bit StreamVariant.WebSocket buf =
      Except.ok { wire := buf, total_sent := buf.length } ∧
    write_8bit StreamVariant.HyperWebSocket buf =
      Except.ok { wire := buf, total_sent := buf.length } ∧
    (buf.length ≤ 4294967295 →
      write_8bit StreamVariant.Custom buf =
        Except.ok { wire := buf, total_sent := buf.length }) := by
  refine ⟨?_, ?_, rfl, rfl, ?_⟩
  · intro h; simp [write_8bit, h]
  · intro h; simp [write_8bit, Nat.not_lt.mpr h]
  · intro h; simp [write_8bit, write_32bit, Nat.not_lt.mpr h]

/-- Witness for C7 (amended) at a 3-byte buffer. -/
theorem C7_write_8bit_amended_witness :
    write_8bit StreamVariant.Tcp [5, 6, 7] =
      Except.ok { wire := [3, 5, 6, 7], total_sent := 4 } ∧
    write_8bit StreamVariant.Custom [5, 6, 7] =
      Except.ok { wire := [5, 6, 7], total_sent := 3 } :=
  ⟨(C7_write_8bit_amended [5, 6, 7]).2.1 (by decide),
   (C7_write_8bit_amended [5, 6, 7]).2.2.2.2 (by decide)⟩

/-- Claim C8, evaluated at the failing input: for group "mygroup" with
an advert stored at the key hashed from "advert:mygroup",
`process_group_remove` queries the advert store at the group key
instead of the advert key, so the advert key is never deleted even
though the call reports success. -/
theorem C8_group_remove_uses_group_key :
    (process_group_remove grCtxW "mygroup").advert_queries =
      [PrimaryKey.ofString "mygroup"] ∧
    (process_group_remove grCtxW "mygroup").advert_queries ≠
      [PrimaryKey.ofString "advert:mygroup"] ∧
    (process_group_remove grCtxW "mygroup").deleted =
      [PrimaryKey.ofString "mygroup"] ∧
    PrimaryKey.ofString "advert:mygroup" ∉
      (process_group_remove grCtxW "mygroup").deleted ∧
    (process_group_remove grCtxW "mygroup").result =
      Except.ok (PrimaryKey.ofString "mygroup") := by
  refine ⟨by decide, by decide, by decide, by decide, ?_⟩
  rfl

/-- Claim C3, evaluated at the failing input: with the chain's secondary
index listing the same child key twice and an empty DIO state,
`Dio::children` returns that key three times — the load loop's
load-cache branch pushes a row and then falls through and pushes the
freshly decoded row again. -/
theorem C3_children_duplicate_keys :
    (Dio.children cvC3 DioState.new (PrimaryKey.gen 0) 5).map
        (fun p => p.1.map Row.key) =
      Except.ok [kC3, kC3, kC3] := by
  rfl

/-- Once commit gets past the empty-staging check, the state it leaves
behind is the input state with the staged-row vector drained empty —
whether it succeeds or errors (`Vec::drain` empties the vector even
when an error cuts the loop short). -/
theorem commit_state_shape (cv : ChainView) (scope : Scope)
    (fmt : MessageFormat) (s : DioState)
    (h : (s.store.isEmpty && s.deleted.isEmpty) = false) :
    (Dio.commit cv scope fmt s).state = { s with store := [] } := by
  unfold Dio.commit
  rw [if_neg (by simp [h])]
  split
  · rfl
  · split
    · rfl
    · split
      · rfl
      · rfl

/-- Claim C1 (amended): when commit fails, the error surfaces and the
load cache, both staged caches, the lock set, the deleted map and the
pipe-unlock set are exactly as before the call — but the staged-row
vector has been drained empty, so a second commit does not rebuild the
Data events (re-commit is not idempotent for staged rows). -/
theorem C1_commit_error_state (cv : ChainView) (scope : Scope)
    (fmt : MessageFormat) (s : DioState) (e : CommitError)
    (h : (Dio.commit cv scope fmt s).result = Except.error e) :
    (Dio.commit cv scope fmt s).state.store = [] ∧
    (Dio.commit cv scope fmt s).state.cache_store_primary =
      s.cache_store_primary ∧
    (Dio.commit cv scope fmt s).state.cache_store_secondary =
      s.cache_store_secondary ∧
    (Dio.commit cv scope fmt s).state.cache_load = s.cache_load ∧
    (Dio.commit cv scope fmt s).state.locked = s.locked ∧
    (Dio.commit cv scope fmt s).state.deleted = s.deleted ∧
    (Dio.commit cv scope fmt s).state.pipe_unlock = s.pipe_unlock := by
  have hne : (s.store.isEmpty && s.deleted.isEmpty) = false := by
    by_contra hc
    rw [Bool.not_eq_false] at hc
    unfold Dio.commit at h
    rw [if_pos hc] at h
    simp at h
  rw [commit_state_shape cv scope fmt s hne]
  exact ⟨rfl, rfl, rfl, rfl, rfl, rfl, rfl⟩

/-- Witness for C1 (amended): a failing commit of one staged row drains
the store and preserves everything else. -/
theorem C1_commit_error_state_witness :
    (Dio.commit cvFeedErr Scope.Local MessageFormat.binary sStoreW).state.store
      = [] ∧
    (Dio.commit cvFeedErr Scope.Local MessageFormat.binary
      sStoreW).state.cache_store_primary = sStoreW.cache_store_primary ∧
    (Dio.commit cvFeedErr Scope.Local MessageFormat.binary
      sStoreW).state.cache_store_secondary = sStoreW.cache_store_secondary ∧
    (Dio.commit cvFeedErr Scope.Local MessageFormat.binary
      sStoreW).state.cache_load = sStoreW.cache_load ∧
    (Dio.commit cvFeedErr Scope.Local MessageFormat.binary
      sStoreW).state.locked = sStoreW.locked ∧
    (Dio.commit cvFeedErr Scope.Local MessageFormat.binary
      sStoreW).state.deleted = sStoreW.deleted ∧
    (Dio.commit cvFeedErr Scope.Local MessageFormat.binary
      sStoreW).state.pipe_unlock = sStoreW.pipe_unlock :=
  C1_commit_error_state cvFeedErr Scope.Local MessageFormat.binary sStoreW
    CommitError.TransmitError rfl

/-- Counterexample to C1 as stated: a commit of one staged row whose
transaction fails returns the error, yet the DIO state is not what it
was before the call — the staged-row vector has been emptied. -/
theorem C1_counterexample :
    (Dio.commit cvFeedErr Scope.Local MessageFormat.binary sStoreW).result =
      Except.error CommitError.TransmitError ∧
    (Dio.commit cvFeedErr Scope.Local MessageFormat.binary sStoreW).state ≠
      sStoreW := by
  refine ⟨rfl, ?_⟩
  intro hc
  have h2 : ([] : List RowData) = [rowW] := by
    calc ([] : List RowData)
        = (Dio.commit cvFeedErr Scope.Local MessageFormat.binary
            sStoreW).state.store := rfl
      _ = sStoreW.store := congrArg DioState.store hc
      _ = [rowW] := rfl
  simp at h2

/-- A successful `mapE` relates input and output elementwise, in
order. -/
theorem mapE_ok_forall2 {e a b : Type} (f : a → Except e b) :
    ∀ (l : List a) (l2 : List b), mapE f l = Except.ok l2 →
      List.Forall₂ (fun x y => f x = Except.ok y) l l2 := by
  intro l
  induction l with
  | nil =>
    intro l2 h
    unfold mapE at h
    rw [← Except.ok.inj h]
    exact List.Forall₂.nil
  | cons x rest ih =>
    intro l2 h
    unfold mapE at h
    cases hf : f x with
    | error err => rw [hf] at h; simp at h
    | ok y =>
      rw [hf] at h
      cases hr : mapE f rest with
      | error err => rw [hr] at h; simp at h
      | ok ys =>
        rw [hr] at h
        rw [← Except.ok.inj h]
        exact List.Forall₂.cons hf (ih ys hr)

/-- A data event commit builds starts with the row's `Data` entry,
carries a payload, and uses the given format. -/
theorem buildDataEvent_ok (cv : ChainView) (fmt : MessageFormat)
    (row : RowData) (evt : EventData)
    (h : buildDataEvent cv fmt row = Except.ok evt) :
    evt.meta.core.head? = some (CoreMetadata.Data row.key) ∧
    (∃ b, evt.data_bytes = some b) ∧ evt.format = fmt := by
  unfold buildDataEvent at h
  cases hle : cv.metadata_lint_event (dataEventMeta row) with
  | error e => simp [hle] at h
  | ok extra =>
    simp only [hle] at h
    cases hdu : cv.data_as_underlay
        { core := (dataEventMeta row).core ++ extra } row.data with
    | error e => simp [hdu] at h
    | ok bytes =>
      simp only [hdu] at h
      rw [← Except.ok.inj h]
      refine ⟨?_, ⟨_, rfl⟩, rfl⟩
      simp [dataEventMeta, Metadata.for_data]

/-- A tombstone event commit builds ends with the key's `Tombstone`
entry, carries no payload, and uses the given format. -/
theorem buildTombstoneEvent_ok (cv : ChainView) (fmt : MessageFormat)
    (key : PrimaryKey) (row : RowData) (evt : EventData)
    (h : buildTombstoneEvent cv fmt key row = Except.ok evt) :
    evt.meta.core.getLast? = some (CoreMetadata.Tombstone key) ∧
    evt.data_bytes = none ∧ evt.format = fmt := by
  unfold buildTombstoneEvent at h
  cases hle : cv.metadata_lint_event (tombEventMeta row) with
  | error e => simp [hle] at h
  | ok extra =>
    simp only [hle] at h
    rw [← Except.ok.inj h]
    refine ⟨?_, rfl, rfl⟩
    simp [Metadata.add_tombstone, List.getLast?_concat]

/-- Claim C5: when the event construction and cross-event lint succeed,
commit feeds one transaction carrying, in order: a single
metadata-only event holding the lint output (present exactly when that
output is non-empty), then one Data event per staged row in staging
order, then one Tombstone event per deleted key; the transaction has
the DIO's scope, carries a result channel iff the scope is not `None`,
and commit's return value is the channel's outcome exactly when the
scope is not `None`. -/
theorem C5_commit_batch (cv : ChainView) (scope : Scope)
    (fmt : MessageFormat) (s : DioState)
    (dataEvts tombEvts : List EventData) (lintMeta : List CoreMetadata)
    (hne : (s.store.isEmpty && s.deleted.isEmpty) = false)
    (hd : mapE (buildDataEvent cv fmt) s.store = Except.ok dataEvts)
    (ht : mapE (fun kr => buildTombstoneEvent cv fmt kr.1 kr.2) s.deleted =
      Except.ok tombEvts)
    (hl : cv.metadata_lint_many (dataEvts ++ tombEvts) =
      Except.ok lintMeta) :
    (∃ t : Transaction,
      (Dio.commit cv scope fmt s).fed = some t ∧
      t.scope = scope ∧
      t.events =
        (if lintMeta.length > 0 then
          [({ meta := { core := lintMeta }, data_bytes := none,
              format := fmt } : EventData)]
         else []) ++ dataEvts ++ tombEvts ∧
      (t.has_result = true ↔ scope ≠ Scope.NoneScope)) ∧
    List.Forall₂ (fun (row : RowData) (evt : EventData) =>
      evt.meta.core.head? = some (CoreMetadata.Data row.key) ∧
      (∃ b, evt.data_bytes = some b) ∧ evt.format = fmt)
      s.store dataEvts ∧
    List.Forall₂ (fun (kr : PrimaryKey × RowData) (evt : EventData) =>
      evt.meta.core.getLast? = some (CoreMetadata.Tombstone kr.1) ∧
      evt.data_bytes = none ∧ evt.format = fmt)
      s.deleted tombEvts ∧
    (scope = Scope.NoneScope →
      (Dio.commit cv scope fmt s).result = Except.ok ()) ∧
    (scope ≠ Scope.NoneScope →
      (Dio.commit cv scope fmt s).result = cv.feed_result) := by
  have hfed : Dio.commit cv scope fmt s =
      CommitResult.mk
        (scopeAwait cv.feed_result scope)
        (some (Transaction.mk scope
          ((if lintMeta.length > 0 then
              [EventData.mk (Metadata.mk lintMeta) none fmt]
            else []) ++ (dataEvts ++ tombEvts))
          (scopeHasResult scope)))
        { s with store := [] } := by
    unfold Dio.commit
    rw [if_neg (by simp [hne])]
    simp only [hd, ht, hl]
    by_cases hlen : lintMeta.length > 0
    · simp [hlen]
    · simp [hlen]
  refine ⟨⟨Transaction.mk scope
      ((if lintMeta.length > 0 then
          [EventData.mk (Metadata.mk lintMeta) none fmt]
        else []) ++ (dataEvts ++ tombEvts))
      (scopeHasResult scope), ?_, rfl, ?_, ?_⟩, ?_, ?_, ?_, ?_⟩
  · rw [hfed]
  · simp [List.append_assoc]
  · cases scope <;> simp [scopeHasResult]
  · exact List.Forall₂.imp
      (fun row evt hre => buildDataEvent_ok cv fmt row evt hre)
      (mapE_ok_forall2 (buildDataEvent cv fmt) s.store dataEvts hd)
  · exact List.Forall₂.imp
      (fun kr evt hke => buildTombstoneEvent_ok cv fmt kr.1 kr.2 evt hke)
      (mapE_ok_forall2 (fun kr => buildTombstoneEvent cv fmt kr.1 kr.2)
        s.deleted tombEvts ht)
  · intro hsc; rw [hfed, hsc]; rfl
  · intro hsc
    rw [hfed]
    cases scope with
    | NoneScope => exact absurd rfl hsc
    | Local => rfl
    | Full => rfl

/-- Witness for C5: one staged row and one deleted key under a pipeline
whose cross-event lint emits one entry — the fed batch opens with the
metadata-only event, then the Data event, then the Tombstone. -/
theorem C5_commit_batch_witness :
    (∃ t : Transaction,
      (Dio.commit cvLintW Scope.Local MessageFormat.binary
        sStoreDelW).fed = some t ∧
      t.scope = Scope.Local ∧
      t.events =
        (if ([CoreMetadata.Author "batch"] : List CoreMetadata).length > 0 then
          [({ meta := { core := [CoreMetadata.Author "batch"] },
              data_bytes := none,
              format := MessageFormat.binary } : EventData)]
         else []) ++ [evtDW] ++ [evtTW] ∧
      (t.has_result = true ↔ Scope.Local ≠ Scope.NoneScope)) ∧
    List.Forall₂ (fun (row : RowData) (evt : EventData) =>
      evt.meta.core.head? = some (CoreMetadata.Data row.key) ∧
      (∃ b, evt.data_bytes = some b) ∧ evt.format = MessageFormat.binary)
      sStoreDelW.store [evtDW] ∧
    List.Forall₂ (fun (kr : PrimaryKey × RowData) (evt : EventData) =>
      evt.meta.core.getLast? = some (CoreMetadata.Tombstone kr.1) ∧
      evt.data_bytes = none ∧ evt.format = MessageFormat.binary)
      sStoreDelW.deleted [evtTW] ∧
    (Scope.Local = Scope.NoneScope →
      (Dio.commit cvLintW Scope.Local MessageFormat.binary
        sStoreDelW).result = Except.ok ()) ∧
    (Scope.Local ≠ Scope.NoneScope →
      (Dio.commit cvLintW Scope.Local MessageFormat.binary
        sStoreDelW).result = cvLintW.feed_result) :=
  C5_commit_batch cvLintW Scope.Local MessageFormat.binary sStoreDelW
    [evtDW] [evtTW] [CoreMetadata.Author "batch"] rfl rfl rfl rfl

end Ate
